import Mathlib

/-!
Shallow embedding of `src/ScraperFC/transfermarkt.py` (class `Transfermarkt`).

HTML pages are modelled by the data the scraper actually reads from them:
an element found by a CSS query becomes an `Option String` (its text, `none`
when the element is absent), a `find_all` becomes a `List`, and the network
fetch becomes a parameter of each function.  Python exceptions become an
`Except TMError` result; `assert`, `int()` / `float()` failures, `[0]` on an
empty list, `None.attr` and `dict[missing]` each map to the corresponding
`TMError` constructor.  Python strings are Lean `String`s, `float` results
are modelled as `ℚ`.

The Python string primitives (`split`, `strip`, `lower`, `replace`, …) are
reimplemented over `List Char` so that every definition evaluates inside the
kernel; Lean's built-in `String.splitOn`/`String.trim`/… use well-founded
recursion on byte positions and do not reduce definitionally.
-/

/-- The Python exceptions that the code in `transfermarkt.py` can raise. -/
inductive TMError where
  | typeError (msg : String)
  | invalidLeague (league modName : String) (valid : List String)
  | invalidYear (year league : String) (valid : List String)
  | attributeError (msg : String)
  | indexError (msg : String)
  | assertionError (msg : String)
  | valueError (msg : String)
  | keyError (key : String)
deriving DecidableEq

deriving instance DecidableEq for Except

/-! ## Python string primitives over `List Char` -/

/-- If `sep` is a prefix of `l`, the remainder of `l` after it. -/
def dropSepChars : List Char → List Char → Option (List Char)
  | [], l => some l
  | _ :: _, [] => none
  | c :: cs, d :: ds => if c = d then dropSepChars cs ds else none

/-- Fueled worker for `str.split(sep)` with non-empty `sep`; the fuel is an
upper bound on the number of characters still to be examined, so with fuel
`l.length + 1` the first branch is never taken. -/
def splitOnCore (sep : List Char) : Nat → List Char → List Char → List (List Char)
  | 0, l, acc => [acc.reverse ++ l]
  | fuel + 1, l, acc =>
      match l with
      | [] => [acc.reverse]
      | c :: rest =>
          match dropSepChars sep l with
          | some rem => acc.reverse :: splitOnCore sep fuel rem []
          | none => splitOnCore sep fuel rest (c :: acc)

/-- Python `s.split(sep)` for non-empty `sep` (the scraper never passes an
empty separator; that would raise `ValueError` in Python). -/
def sSplitOn (s sep : String) : List String :=
  if sep.data.isEmpty then [s]
  else (splitOnCore sep.data (s.data.length + 1) s.data []).map fun l => ⟨l⟩

/-- Python `sep.join(parts)`. -/
def sJoin (sep : String) (parts : List String) : String :=
  ⟨List.intercalate sep.data (parts.map String.data)⟩

/-- Python `s.replace(pat, rep)` for non-empty `pat`
(`s.replace(a, b) == b.join(s.split(a))`). -/
def sReplace (s pat rep : String) : String :=
  sJoin rep (sSplitOn s pat)

/-- Python `s.strip()` (ASCII whitespace suffices for the scraped text). -/
def sTrim (s : String) : String :=
  ⟨((s.data.dropWhile Char.isWhitespace).reverse.dropWhile Char.isWhitespace).reverse⟩

/-- Python `s.lower()`. -/
def sToLower (s : String) : String :=
  ⟨s.data.map Char.toLower⟩

/-- Python `s[n:]` (character based, like Python slicing). -/
def sDrop (s : String) (n : Nat) : String :=
  ⟨s.data.drop n⟩

/-- Python `s.startswith(pre)`. -/
def sStartsWith (s pre : String) : Bool :=
  (dropSepChars pre.data s.data).isSome

/-- Worker for Python `str.split()` (no argument): split on whitespace runs,
dropping empty pieces. -/
def wordsCore : List Char → List Char → List (List Char)
  | [], acc => if acc.isEmpty then [] else [acc.reverse]
  | c :: rest, acc =>
      if c.isWhitespace then
        if acc.isEmpty then wordsCore rest [] else acc.reverse :: wordsCore rest []
      else wordsCore rest (c :: acc)

/-- Python `s.split()` with no argument. -/
def pyWords (s : String) : List String :=
  (wordsCore s.data []).map fun l => ⟨l⟩

/-- Python `sub in s` (substring test).  `s.split(sub)` has at least two
pieces exactly when `sub` occurs in `s`; the empty string is in every
string. -/
def pyContains (s sub : String) : Bool :=
  sub == "" || decide (2 ≤ (sSplitOn s sub).length)

/-- The numeric value of a non-empty all-digit character list. -/
def natOfDigits? (l : List Char) : Option Nat :=
  if l.isEmpty || !(l.all Char.isDigit) then none
  else some (l.foldl (fun a c => a * 10 + (c.toNat - 48)) 0)

/-- Python `int(s)`: optional surrounding whitespace, optional sign, digits.
(`int` also accepts underscores between digits; no caller feeds those.) -/
def pyInt (s : String) : Option Int :=
  match (sTrim s).data with
  | '-' :: rest => (natOfDigits? rest).map (fun n => -(n : Int))
  | '+' :: rest => (natOfDigits? rest).map (fun n => (n : Int))
  | t => (natOfDigits? t).map (fun n => (n : Int))

/-- Python `float(s)` on the plain decimal literals this scraper feeds it:
optional sign, digits with at most one decimal point. -/
def parseFloat (s : String) : Option ℚ :=
  let t := sTrim s
  let sign : ℚ := if sStartsWith t "-" then -1 else 1
  let body := if sStartsWith t "-" || sStartsWith t "+" then sDrop t 1 else t
  match (sSplitOn body ".").map String.data with
  | [i] =>
      (natOfDigits? i).map (fun n => sign * (n : ℚ))
  | [i, f] =>
      if (i ++ f).isEmpty || !((i ++ f).all Char.isDigit) then none
      else
        some (sign * (((natOfDigits? i).getD 0 : Nat) : ℚ)
          + sign * (((natOfDigits? f).getD 0 : Nat) : ℚ) / ((10 : ℚ) ^ f.length))
  | _ => none

/-- Python `l[2:-2]`. -/
def pySlice2Neg2 (l : List α) : List α :=
  ((l.drop 2).dropLast).dropLast

/-- Building a Python `dict` from an association list: insertion order is
kept, a repeated key keeps its first position but takes the last value. -/
def pyDictInsert : List (String × String) → String → String → List (String × String)
  | [], k, v => [(k, v)]
  | (a, b) :: t, k, v =>
      if a = k then (a, v) :: t else (a, b) :: pyDictInsert t k v

/-- Python `dict(pairs)`. -/
def pyDict (l : List (String × String)) : List (String × String) :=
  l.foldl (fun d kv => pyDictInsert d kv.1 kv.2) []

/-! ## `scrape_player` field extractors (transfermarkt.py lines 145-305) -/

/-- Lines 162-164: `name_tag.text.split("\n")[-1].strip()`.  There is no
guard: a missing `h1.data-header__headline-wrapper` raises
`AttributeError` on `.text`. -/
def extractName (t? : Option String) : Except TMError String :=
  match t? with
  | none => .error (.attributeError "NoneType object has no attribute text")
  | some t => .ok (sTrim ((sSplitOn t "\n").getLastD ""))

/-- Lines 166-174: market value and its last-update date, both read from the
same tag; a missing tag raises `AttributeError`, which is caught and turns
both into `None`. -/
def extractValue (t? : Option String) : Option String × Option String :=
  match t? with
  | none => (none, none)
  | some t =>
      (some ((sSplitOn t " ").headD ""), some ((sSplitOn t "Last update: ").getLastD ""))

/-- Lines 176-182: date of birth and age from `span[itemprop=birthDate]`.
A missing element gives `(None, None)`; a present element whose final
parenthesised token is not an integer raises `ValueError` (the `int()` call
is unguarded). -/
def extractDobAge (t? : Option String) : Except TMError (Option String × Option Int) :=
  match t? with
  | none => .ok (none, none)
  | some t =>
      let toks := sSplitOn (sTrim t) " "
      let dob := sJoin " " (toks.take 3)
      match pyInt (sReplace (sReplace (toks.getLastD "") "(" "") ")" "") with
      | none => .error (.valueError "invalid literal for int")
      | some n => .ok (some dob, some n)

/-- Lines 184-193: height from `span[itemprop=height]`.  Missing element or
the sentinels `"N/A"` / `"- m"` give `None`; otherwise `" m"` is removed,
`","` becomes `"."` and the result goes through `float()` (unguarded). -/
def heightOf (t? : Option String) : Except TMError (Option ℚ) :=
  match t? with
  | none => .ok none
  | some t =>
      let s := sTrim t
      if s = "N/A" ∨ s = "- m" then .ok none
      else
        match parseFloat (sReplace (sReplace s " m" "") "," ".") with
        | none => .error (.valueError "could not convert string to float")
        | some q => .ok (some q)

/-- Lines 211-218: primary position.  The `dd.detail-position__position`
text if present; otherwise the first `li.data-header__label` whose text
contains "position" — `[0]` on an empty candidate list raises `IndexError`,
and `.find("span")` returning `None` raises `AttributeError` on `.text`.
Each candidate is modelled as (li text, inner span text). -/
def extractPosition (dd : Option String) (liLabels : List (String × Option String)) :
    Except TMError String :=
  match dd with
  | some t => .ok (sTrim t)
  | none =>
      match (liLabels.filter (fun l => pyContains (sToLower l.1) "position")).head? with
      | none => .error (.indexError "list index out of range")
      | some (_, none) => .error (.attributeError "NoneType object has no attribute text")
      | some (_, some t) => .ok (sTrim t)

/-- Lines 232-259: the `span.data-header__label` entries whose text contains
`key` case-insensitively. -/
def labelHits (labels : List String) (key : String) : List String :=
  labels.filter (fun x => pyContains (sToLower x) key)

/-- `x.text.split(":")[-1].strip()`: the label's text after the last colon,
stripped. -/
def trailingValue (x : String) : String :=
  sTrim ((sSplitOn x ":").getLastD "")

/-- One label scan (lines 232-259, used for "last club", "since", "joined"
and "contract expires"): build the match list, `assert len < 2`, then
`None` for no match or the single match's trailing value. -/
def labelScan (labels : List String) (key : String) : Except TMError (Option String) :=
  let ms := (labelHits labels key).map trailingValue
  if ms.length < 2 then .ok ms.head?
  else .error (.assertionError key)

/-- Lines 261-274: market value history out of the Highcharts script block.
No matching script raises `IndexError` on `[0]`, which is caught and gives
`None`.  Inside, each `y":`-segment's leading token goes through `int()`
(unguarded) and the date is cut out by string surgery. -/
def marketValueHistory (scripts : List String) : Except TMError (Option (List (String × Int))) :=
  let chartScripts := scripts.filter (fun s => pyContains s "var chart = new Highcharts.Chart")
  match chartScripts.head? with
  | none => .ok none
  | some script =>
      let segs := pySlice2Neg2 (sSplitOn script "y\":")
      match segs.mapM (fun s => pyInt ((sSplitOn s ",").headD "")) with
      | none => .error (.valueError "invalid literal for int")
      | some values =>
          let dates := segs.map (fun s =>
            sReplace
              (sReplace ((sSplitOn ((sSplitOn s "datum_mw\":").getLastD "") ",\"x").headD "")
                "\\x20" " ")
              "\"" "")
          .ok (some (dates.zip values))

/-! ## Transfer history (lines 276-283) -/

/-- The fixed column list passed to `pd.DataFrame`. -/
def tmCols : List String :=
  ["Season", "Date", "Left", "Joined", "MV", "Fee", ""]

/-- Each grid block's cleaned segments:
`[s.strip() for s in row.getText().split("\n\n") if s != ""]`. -/
def tmSegments (blocks : List (List String)) : List (List String) :=
  blocks.map (fun b => (b.filter (fun s => s != "")).map sTrim)

/-- The width pandas infers for a list-of-lists payload: the longest row. -/
def pdMaxLen (data : List (List String)) : Nat :=
  (data.map List.length).foldl max 0

/-- `pd.DataFrame(data=rows, columns=cols)` on a list of row lists: an empty
payload gives an empty frame; otherwise rows are padded with `None` to the
longest row's width, and pandas raises when that width differs from the
number of column names. -/
def pdRowsFromLists (data : List (List String)) (ncols : Nat) :
    Except TMError (List (List (Option String))) :=
  if data.isEmpty then .ok []
  else if pdMaxLen data = ncols then
    .ok (data.map (fun r => r.map some ++ List.replicate (pdMaxLen data - r.length) none))
  else .error (.valueError "columns passed, passed data had a different number of columns")

/-- `.drop(columns=[""])` applied to one row: keep the entries whose column
name is non-empty. -/
def dropEmptyCols (cols : List String) (row : List (Option String)) : List (Option String) :=
  ((cols.zip row).filter (fun p => p.1 != "")).map Prod.snd

/-- Lines 276-283: the transfer-history table (rows plus remaining column
names) built from the grid blocks. -/
def transfer_history (blocks : List (List String)) :
    Except TMError (List (List (Option String)) × List String) :=
  match pdRowsFromLists (tmSegments blocks) tmCols.length with
  | .error e => .error e
  | .ok rows => .ok (rows.map (dropEmptyCols tmCols), tmCols.filter (fun c => c != ""))


/-! ## Link extractors (transfermarkt.py lines 19-124)

The static `comps` mapping from `get_module_comps("TRANSFERMARKT")` is not
part of this repository's source; it is modelled abstractly as an
association list from league identifier to the competition's Transfermarkt
base URL (`comps[league]["TRANSFERMARKT"]` in the code). -/

def TRANSFERMARKT_ROOT : String := "https://www.transfermarkt.us"

/-- Lines 19-40, `get_valid_seasons`: `InvalidLeagueException` when the
league is not a key of `comps` (raised before any network access);
otherwise the season selector's option list is read from the fetched page
(`none` models a page without the `saison_id` select tag, on which
`.find_all` raises `AttributeError`) and turned into a dict.
The `isinstance(league, str)` guard is vacuous here since `league : String`. -/
def get_valid_seasons (comps : List (String × String)) (league : String)
    (seasonOptions : Option (List (String × String))) :
    Except TMError (List (String × String)) :=
  if (comps.map Prod.fst).contains league then
    match seasonOptions with
    | none => .error (.attributeError "NoneType object has no attribute find_all")
    | some opts => .ok (pyDict opts)
  else .error (.invalidLeague league "Transfermarkt" (comps.map Prod.fst))

/-- Lines 43-75, `get_club_links`: validate the year against
`get_valid_seasons`' keys, then read the `table.items` cells of the roster
page (each cell is its anchor's href, `none` when the cell has no anchor, in
which case `None["href"]` raises `TypeError`).  A missing table produces a
warning and an empty list; the result is (warnings, links).
The `isinstance(year, str)` guard is vacuous here since `year : String`. -/
def get_club_links (comps : List (String × String)) (year league : String)
    (seasonOptions : Option (List (String × String)))
    (itemsTable : Option (List (Option String))) :
    Except TMError (List String × List String) := do
  let valid ← get_valid_seasons comps league seasonOptions
  if !((valid.map Prod.fst).contains year) then
    .error (.invalidYear year league (valid.map Prod.fst))
  else
    match itemsTable with
    | none =>
        .ok ([s!"No club links table found for {year} {league}. Returning empty list."], [])
    | some cells => do
        let links ← cells.mapM (fun c =>
          match c with
          | some href => Except.ok (TRANSFERMARKT_ROOT ++ href)
          | none => Except.error (TMError.typeError "NoneType object is not subscriptable"))
        .ok ([], links)

/-- A club roster page as read by `get_player_links`: the optional
`table.items` and its `td.hauptlink` cells; a cell is its anchor's href,
`none` for a cell with no anchor (such cells are skipped by the code's
`if x.find("a") is not None` guard). -/
structure RosterPage where
  itemsTable : Option (List (Option String))
deriving DecidableEq

/-- Lines 78-103, `get_player_links`: collect the club links, fetch each
club's roster page, accumulate the player hrefs, and return
`list(set(player_links))`.  Python's set iteration order is unspecified;
`List.dedup` fixes one duplicate-free ordering of the same elements. -/
def get_player_links (comps : List (String × String)) (year league : String)
    (seasonOptions : Option (List (String × String)))
    (itemsTable : Option (List (Option String)))
    (fetch : String → RosterPage) : Except TMError (List String) := do
  let clubs ← get_club_links comps year league seasonOptions itemsTable
  let playerLinks := clubs.2.foldl (fun acc clubLink =>
    match (fetch clubLink).itemsTable with
    | none => acc
    | some cells =>
        acc ++ (cells.filterMap id).map (fun href => TRANSFERMARKT_ROOT ++ href)) []
  return playerLinks.dedup

/-- Lines 106-124, `get_match_links`: unlike `get_club_links` there is no
`year not in valid_seasons` check — `valid_seasons[year]` is a bare dict
subscript that raises `KeyError` for an unknown year.  `comps[league]` is
likewise a bare subscript, and the fixtures URL is derived by substring
substitution; `fetchAnchors` models the `a.ergebnis-link` hrefs of the
fetched fixtures page. -/
def get_match_links (comps : List (String × String)) (year league : String)
    (seasonOptions : Option (List (String × String)))
    (fetchAnchors : String → List String) : Except TMError (List String) := do
  let valid ← get_valid_seasons comps league seasonOptions
  let baseUrl ← match comps.lookup league with
    | none => Except.error (TMError.keyError league)
    | some url => Except.ok url
  let sid ← match valid.lookup year with
    | none => Except.error (TMError.keyError year)
    | some sid => Except.ok sid
  let fixturesUrl := (sReplace baseUrl "startseite" "gesamtspielplan") ++ "/saison_id/" ++ sid
  return (fetchAnchors fixturesUrl).map (fun h => "https://www.transfermarkt.us" ++ h)

/-! ## `scrape_player` (lines 145-305) -/

/-- A player profile page as read by `scrape_player`, field by field in the
order the code queries them.  Flag images are modelled by their `title`
attribute; `li.data-header__label` entries by (li text, inner span text). -/
structure PlayerPage where
  nameTag : Option String
  valueTag : Option String
  birthDateTag : Option String
  heightTag : Option String
  nationalityTag : Option String
  citizenshipFlagTitles : List (List String)
  detailPositionDD : Option String
  liLabels : List (String × Option String)
  detailPositionDiv : Option (List String)
  teamTag : Option String
  spanLabels : List String
  scripts : List String
  transferBlocks : List (List String)
deriving DecidableEq

/-- The single row that `scrape_player` returns, one field per `player[...]`
assignment (lines 285-303). -/
structure PlayerRecord where
  name : String
  id : String
  value : Option String
  valueLastUpdated : Option String
  dob : Option String
  age : Option Int
  height : Option ℚ
  nationality : Option String
  citizenship : List String
  position : String
  otherPositions : Option (List String)
  team : Option String
  lastClub : Option String
  since : Option String
  joined : Option String
  contractExpiration : Option String
  marketValueHistory : Option (List (String × Int))
  transferHistory : List (List (Option String)) × List String
deriving DecidableEq

/-- Lines 145-305, `scrape_player`, with the fields evaluated in source
order so that the first Python exception is the one reported. -/
def scrape_player (player_link : String) (p : PlayerPage) : Except TMError PlayerRecord := do
  let name ← extractName p.nameTag
  let vv := extractValue p.valueTag
  let da ← extractDobAge p.birthDateTag
  let height ← heightOf p.heightTag
  let nationality := p.nationalityTag.map (fun t => sTrim (sReplace t "\n" ""))
  let citizenship := p.citizenshipFlagTitles.flatten.dedup
  let position ← extractPosition p.detailPositionDD p.liLabels
  let otherPositions := p.detailPositionDiv
  let team := p.teamTag.map sTrim
  let lastClub ← labelScan p.spanLabels "last club"
  let sinceDate ← labelScan p.spanLabels "since"
  let joinedDate ← labelScan p.spanLabels "joined"
  let contractExpiration ← labelScan p.spanLabels "contract expires"
  let mvh ← marketValueHistory p.scripts
  let th ← transfer_history p.transferBlocks
  return { name := name
           id := (sSplitOn player_link "/").getLastD ""
           value := vv.1
           valueLastUpdated := vv.2
           dob := da.1
           age := da.2
           height := height
           nationality := nationality
           citizenship := citizenship
           position := position
           otherPositions := otherPositions
           team := team
           lastClub := lastClub
           since := sinceDate
           joined := joinedDate
           contractExpiration := contractExpiration
           marketValueHistory := mvh
           transferHistory := th }

/-! ## `scrape_trainer` (lines 358-457) -/

/-- Helper `squash` (lines 384-385): `" ".join((s or "").split())`. -/
def squash (s : String) : String :=
  sJoin " " (pyWords s)

/-- Helper `norm_key` (lines 387-408): lowercase, strip, drop colons, turn
slashes into spaces, collapse whitespace to underscores, then the synonym
table. -/
def norm_key (raw : String) : String :=
  let k := sTrim (sToLower raw)
  let k := sReplace (sReplace k ":" "") "/" " "
  let k := sJoin " " (pyWords k)
  let k := sReplace k " " "_"
  let mapping : List (String × String) :=
    [("name_in_home_country", "full_name_native"),
     ("full_name", "full_name_native"),
     ("date_of_birth_age", "date_of_birth_age"),
     ("date_of_birth", "date_of_birth_age"),
     ("place_of_birth", "place_of_birth"),
     ("citizenship", "citizenship"),
     ("avg._term_as_trainer", "avg_term_as_trainer"),
     ("avg_term_as_trainer", "avg_term_as_trainer"),
     ("trainering_licence", "trainering_licence"),
     ("preferred_formation", "preferred_formation")]
  (mapping.lookup k).getD k

/-- Python truthiness of an optional string (`if val:`). -/
def truthy : Option String → Bool
  | none => false
  | some v => v != ""

/-- One step of the `data[key] = val` loop of lines 422-435: a truthy value
overwrites the key's entry, anything else leaves the dict alone. -/
def storeFold (data : String → Option String) (e : String × Option String) :
    String → Option String :=
  match e.2 with
  | some v => if v != "" then (fun q => if q = e.1 then some v else data q) else data
  | none => data

/-- The dict built by the collection loop (lines 417-435) from the
normalized (key, value) entries, in page order. -/
def storeEntries (entries : List (String × Option String)) : String → Option String :=
  entries.foldl storeFold (fun _ => none)

/-- A `li.data-header__label` row of the trainer header: its direct text
node (`find(text=True, recursive=False)`), its full `get_text` fallback and
the optional `span.data-header__content` value. -/
structure TrainerLi where
  directText : Option String
  fullText : String
  spanText : Option String

/-- Lines 424-428: the raw key text of one row — the direct text node when
truthy, else the full text up to the first colon. -/
def liKey (li : TrainerLi) : String :=
  match li.directText with
  | some t => if t != "" then t else (sSplitOn li.fullText ":").headD ""
  | none => (sSplitOn li.fullText ":").headD ""

/-- Lines 417-435: the normalized label/value dict collected from the
header rows of all `.data-header__details` blocks, flattened in page
order. -/
def scrape_trainer_data (lis : List TrainerLi) : String → Option String :=
  storeEntries (lis.map (fun li => (norm_key (squash (liKey li)), li.spanText.map squash)))

/-- The value the spec's words prescribe for one key: the last entry for
that key whose value is non-empty, or nothing if every entry for the key is
empty or missing. -/
def lastNonEmpty : List (String × Option String) → String → Option String
  | [], _ => none
  | e :: es, k =>
      match lastNonEmpty es k with
      | some v => some v
      | none =>
          match e.2 with
          | some v => if e.1 = k ∧ v ≠ "" then some v else none
          | none => none


/-- A player page whose name header element is absent but whose primary
position element is present; every other optional element is also absent. -/
def pageWithoutName : PlayerPage :=
  { nameTag := none
    valueTag := none
    birthDateTag := none
    heightTag := none
    nationalityTag := none
    citizenshipFlagTitles := []
    detailPositionDD := some "Goalkeeper"
    liLabels := []
    detailPositionDiv := none
    teamTag := none
    spanLabels := []
    scripts := []
    transferBlocks := [] }

/-- A page whose name is present but both position sources are absent. -/
def pageWithoutPosition : PlayerPage :=
  { pageWithoutName with nameTag := some "Jan Oblak", detailPositionDD := none }

/-- A page whose height element is present but holds unparseable text. -/
def pageBadHeight : PlayerPage :=
  { pageWithoutName with nameTag := some "Jan Oblak", heightTag := some "Tall" }

/-- A page whose birth-date element is present but holds no age integer. -/
def pageBadDob : PlayerPage :=
  { pageWithoutName with nameTag := some "Jan Oblak", birthDateTag := some "Unknown" }

/-- A page whose market-value chart script is present but has an
unparseable value in a `y":` segment. -/
def pageBadChart : PlayerPage :=
  { pageWithoutName with
      nameTag := some "Jan Oblak"
      scripts := ["var chart = new Highcharts.Chart y\":A,y\":B,y\":C,y\":D,y\":E"] }

/-- A page whose single transfer grid block splits into 3 segments. -/
def pageBadGrid : PlayerPage :=
  { pageWithoutName with
      nameTag := some "Jan Oblak"
      transferBlocks := [["23/24", "Jul 1, 2023", "FC A"]] }

/-- A page on which every optional source element is present and
well-formed (the position comes from the label fallback). -/
def pageFieldsPresent : PlayerPage :=
  { nameTag := some "#10\nLionel Messi"
    valueTag := some "€32.00m Last update: Jun 2, 2024"
    birthDateTag := some "Jun 24, 1987 (37)"
    heightTag := some "1,70 m"
    nationalityTag := some " Argentina "
    citizenshipFlagTitles := [["Argentina"], ["Spain"]]
    detailPositionDD := none
    liLabels := [("Position: Forward", some " Centre-Forward ")]
    detailPositionDiv := some ["Right Winger"]
    teamTag := some " Inter Miami CF "
    spanLabels := ["Last club: FC Barcelona"]
    scripts := ["var chart = new Highcharts.Chart y\":1,y\":2,y\":3,y\":4,y\":5"]
    transferBlocks := [["23/24", "Jul 15, 2023", "Paris SG", "Inter Miami", "€30.00m",
      "free transfer", "x"]] }

/-- A page with name and position present and every other optional source
element absent except one label-scan hit. -/
def pageFieldsAbsent : PlayerPage :=
  { nameTag := some "Jan Oblak"
    valueTag := none
    birthDateTag := none
    heightTag := none
    nationalityTag := none
    citizenshipFlagTitles := []
    detailPositionDD := some " Goalkeeper "
    liLabels := []
    detailPositionDiv := none
    teamTag := none
    spanLabels := ["Last club: Atletico Madrid"]
    scripts := []
    transferBlocks := [] }

/-- The row `scrape_player` produces for `pageFieldsAbsent`. -/
def recordFieldsAbsent : PlayerRecord :=
  { name := "Jan Oblak"
    id := "3"
    value := none
    valueLastUpdated := none
    dob := none
    age := none
    height := none
    nationality := none
    citizenship := []
    position := "Goalkeeper"
    otherPositions := none
    team := none
    lastClub := some "Atletico Madrid"
    since := none
    joined := none
    contractExpiration := none
    marketValueHistory := none
    transferHistory := ([], ["Season", "Date", "Left", "Joined", "MV", "Fee"]) }

/-! ## Claims -/

/-- C2: for each of the four label-scanned fields of `scrape_player`, a
label list with exactly one case-insensitive substring match yields that
label's text after the last colon, stripped; two or more matches raise the
assertion; no match yields `None`. -/
theorem c2_label_scan_cases (labels : List String) (key : String) :
    (∀ x, labelHits labels key = [x] →
      labelScan labels key = .ok (some (sTrim ((sSplitOn x ":").getLastD "")))) ∧
    (2 ≤ (labelHits labels key).length →
      labelScan labels key = .error (.assertionError key)) ∧
    (labelHits labels key = [] → labelScan labels key = .ok none) := by
  refine ⟨fun x hx => ?_, fun h => ?_, fun h => ?_⟩
  · simp [labelScan, hx, trailingValue]
  · have hlen : ¬ ((labelHits labels key).map trailingValue).length < 2 := by
      simp only [List.length_map]
      omega
    simp only [labelScan]
    rw [if_neg hlen]
  · simp [labelScan, h]

theorem c2_label_scan_cases_witness :
    labelScan ["Last club: Arsenal FC"] "last club" = .ok (some "Arsenal FC")
    ∧ labelScan ["Since: Jul 1, 2020", "Since: Jul 1, 2021"] "since"
        = .error (.assertionError "since")
    ∧ labelScan ["Caps/Goals: 12"] "joined" = .ok none :=
  ⟨((c2_label_scan_cases ["Last club: Arsenal FC"] "last club").1
      "Last club: Arsenal FC" (by decide)).trans (by decide),
   (c2_label_scan_cases ["Since: Jul 1, 2020", "Since: Jul 1, 2021"] "since").2.1 (by decide),
   (c2_label_scan_cases ["Caps/Goals: 12"] "joined").2.2 (by decide)⟩

/-- C4: for a valid league and season whose roster page has no
`table.items`, `get_club_links` returns a warning and the empty list, and
does not raise. -/
theorem c4_missing_table_soft_failure (comps : List (String × String))
    (year league : String) (opts : List (String × String))
    (hleague : (comps.map Prod.fst).contains league = true)
    (hyear : ((pyDict opts).map Prod.fst).contains year = true) :
    get_club_links comps year league (some opts) none =
      .ok ([s!"No club links table found for {year} {league}. Returning empty list."], []) := by
  have hv : get_valid_seasons comps league (some opts) = .ok (pyDict opts) := by
    unfold get_valid_seasons
    rw [if_pos hleague]
  unfold get_club_links
  rw [hv]
  show (if (!((pyDict opts).map Prod.fst).contains year) = true then _ else _) = _
  rw [hyear]
  rfl

theorem c4_missing_table_soft_failure_witness :
    get_club_links [("EPL", "https://t.us/premier-league/startseite/wettbewerb/GB1")]
      "2023" "EPL" (some [("2023", "2023")]) none =
      .ok (["No club links table found for 2023 EPL. Returning empty list."], []) :=
  (c4_missing_table_soft_failure _ _ _ _ (by decide) (by decide)).trans (by decide)

/-- C5: for a valid league and a year outside the valid-season keys,
`get_club_links` fails with `InvalidYearException` carrying the valid
season labels. -/
theorem c5_invalid_year_error (comps : List (String × String)) (year league : String)
    (opts : List (String × String)) (itemsTable : Option (List (Option String)))
    (hleague : (comps.map Prod.fst).contains league = true)
    (hyear : ((pyDict opts).map Prod.fst).contains year = false) :
    get_club_links comps year league (some opts) itemsTable =
      .error (.invalidYear year league ((pyDict opts).map Prod.fst)) := by
  have hv : get_valid_seasons comps league (some opts) = .ok (pyDict opts) := by
    unfold get_valid_seasons
    rw [if_pos hleague]
  unfold get_club_links
  rw [hv]
  show (if (!((pyDict opts).map Prod.fst).contains year) = true then _ else _) = _
  rw [hyear]
  rfl

theorem c5_invalid_year_error_witness :
    get_club_links [("EPL", "https://t.us/premier-league/startseite/wettbewerb/GB1")]
      "1875" "EPL" (some [("2023", "2023"), ("2022", "2022")]) none =
      .error (.invalidYear "1875" "EPL" ["2023", "2022"]) :=
  (c5_invalid_year_error _ _ _ _ _ (by decide) (by decide)).trans (by decide)

/-- C6: `get_valid_seasons` fails with `InvalidLeagueException` carrying
the valid league identifiers exactly for leagues outside the `comps`
mapping; a league in the mapping never produces that error. -/
theorem c6_invalid_league_error (comps : List (String × String)) (league : String)
    (seasonOptions : Option (List (String × String))) :
    ((comps.map Prod.fst).contains league = false →
      get_valid_seasons comps league seasonOptions =
        .error (.invalidLeague league "Transfermarkt" (comps.map Prod.fst)))
    ∧ ((comps.map Prod.fst).contains league = true →
      ∀ l m vl, get_valid_seasons comps league seasonOptions ≠ .error (.invalidLeague l m vl)) := by
  constructor
  · intro h
    unfold get_valid_seasons
    rw [if_neg (by rw [h]; exact Bool.false_ne_true)]
  · intro h l m vl
    unfold get_valid_seasons
    rw [if_pos h]
    cases seasonOptions <;> simp

theorem c6_invalid_league_error_witness :
    get_valid_seasons [("EPL", "u")] "MLS" (some [("2023", "2023")]) =
      .error (.invalidLeague "MLS" "Transfermarkt" ["EPL"])
    ∧ ∀ l m vl, get_valid_seasons [("EPL", "u")] "EPL" (some [("2023", "2023")]) ≠
        .error (.invalidLeague l m vl) :=
  ⟨(c6_invalid_league_error [("EPL", "u")] "MLS" (some [("2023", "2023")])).1 (by decide),
   (c6_invalid_league_error [("EPL", "u")] "EPL" (some [("2023", "2023")])).2 (by decide)⟩

/-- C7: height parsing in `scrape_player` — the text `"1,85 m"` parses to
`1.85`, the sentinels `"N/A"` and `"- m"` give `None`, and a missing
element gives `None`. -/
theorem c7_height_parsing :
    heightOf (some "1,85 m") = .ok (some (1.85 : ℚ))
    ∧ heightOf (some "N/A") = .ok none
    ∧ heightOf (some "- m") = .ok none
    ∧ heightOf none = .ok none := by
  refine ⟨?_, by decide, by decide, rfl⟩
  have h1 : heightOf (some "1,85 m")
      = .ok (some ((1 : ℚ) * ((1 : Nat) : ℚ)
          + (1 : ℚ) * ((85 : Nat) : ℚ) / (10 : ℚ) ^ (2 : Nat))) := rfl
  rw [h1]
  norm_num

/-- C8: whenever `get_player_links` succeeds, the returned link list has no
duplicate URLs. -/
theorem c8_player_links_nodup (comps : List (String × String)) (year league : String)
    (seasonOptions : Option (List (String × String)))
    (itemsTable : Option (List (Option String))) (fetch : String → RosterPage)
    (links : List String)
    (h : get_player_links comps year league seasonOptions itemsTable fetch = .ok links) :
    links.Nodup := by
  unfold get_player_links at h
  cases hc : get_club_links comps year league seasonOptions itemsTable with
  | error e =>
      rw [hc] at h
      exact absurd h (by simp [Bind.bind, Except.bind])
  | ok clubs =>
      rw [hc] at h
      simp only [Bind.bind, Except.bind, pure, Except.pure, Except.ok.injEq] at h
      rw [← h]
      exact List.nodup_dedup _

theorem c8_player_links_nodup_witness : (["https://www.transfermarkt.us/p/9"] : List String).Nodup :=
  c8_player_links_nodup [("EPL", "u")] "2023" "EPL" (some [("2023", "2023")])
    (some [some "/club/1", some "/club/2"])
    (fun _ => ⟨some [some "/p/9"]⟩) ["https://www.transfermarkt.us/p/9"] (by decide)

/-- C9: for a valid league and a year outside the valid-season keys,
`get_match_links` fails with a plain `KeyError` from the bare dict
subscript, not with `InvalidYearException`. -/
theorem c9_match_links_keyerror (comps : List (String × String)) (year league url : String)
    (opts : List (String × String)) (fetchAnchors : String → List String)
    (hleague : (comps.map Prod.fst).contains league = true)
    (hurl : comps.lookup league = some url)
    (hyear : (pyDict opts).lookup year = none) :
    get_match_links comps year league (some opts) fetchAnchors = .error (.keyError year)
    ∧ ∀ y l vl,
        get_match_links comps year league (some opts) fetchAnchors ≠
          .error (.invalidYear y l vl) := by
  have hv : get_valid_seasons comps league (some opts) = .ok (pyDict opts) := by
    unfold get_valid_seasons
    rw [if_pos hleague]
  have hmain : get_match_links comps year league (some opts) fetchAnchors =
      .error (.keyError year) := by
    unfold get_match_links
    rw [hv]
    show (Except.ok (pyDict opts) >>= fun valid => _) = _
    simp only [Bind.bind, Except.bind]
    rw [hurl, hyear]
  refine ⟨hmain, fun y l vl => ?_⟩
  rw [hmain]
  intro hcontra
  exact absurd (Except.error.inj hcontra) (by intro hfalse; cases hfalse)

theorem c9_match_links_keyerror_witness :
    get_match_links [("EPL", "u")] "1875" "EPL" (some [("2023", "2023")]) (fun _ => []) =
      .error (.keyError "1875")
    ∧ ∀ y l vl,
        get_match_links [("EPL", "u")] "1875" "EPL" (some [("2023", "2023")]) (fun _ => []) ≠
          .error (.invalidYear y l vl) :=
  c9_match_links_keyerror [("EPL", "u")] "1875" "EPL" "u" [("2023", "2023")] (fun _ => [])
    (by decide) (by decide) (by decide)

/-- The foldl that builds the trainer dict agrees pointwise with "last
non-empty value for the key wins", over any starting dict. -/
theorem storeFold_foldl_eq (entries : List (String × Option String))
    (acc : String → Option String) (k : String) :
    entries.foldl storeFold acc k = (lastNonEmpty entries k).or (acc k) := by
  induction entries generalizing acc with
  | nil => simp [lastNonEmpty, Option.or]
  | cons e es ih =>
      rw [List.foldl_cons, ih (storeFold acc e)]
      cases hrec : lastNonEmpty es k with
      | some v => simp [lastNonEmpty, hrec, Option.or]
      | none =>
          obtain ⟨e1, e2⟩ := e
          match e2 with
          | none => simp [lastNonEmpty, hrec, Option.or, storeFold]
          | some v =>
              by_cases hk : e1 = k
              · subst hk
                by_cases hv : v = ""
                · subst hv
                  simp [lastNonEmpty, hrec, Option.or, storeFold]
                · simp [lastNonEmpty, hrec, Option.or, storeFold, hv]
              · by_cases hv : v = ""
                · subst hv
                  simp [lastNonEmpty, hrec, Option.or, storeFold, hk]
                · simp [lastNonEmpty, hrec, Option.or, storeFold, hk, hv, Ne.symm hk]

/-- C3: in `scrape_trainer`'s normalization, "Name in home country" and
"Full name" both normalize to `full_name_native`, and for every entry
sequence the dict built by the collection loop holds, per key, the last
non-empty value encountered (empty or missing values never overwrite a
stored one). -/
theorem c3_trainer_norm_last_wins :
    norm_key "Name in home country" = "full_name_native"
    ∧ norm_key "Full name" = "full_name_native"
    ∧ ∀ (entries : List (String × Option String)) (k : String),
        storeEntries entries k = lastNonEmpty entries k := by
  refine ⟨by decide, by decide, fun entries k => ?_⟩
  rw [storeEntries, storeFold_foldl_eq entries (fun _ => none) k]
  cases lastNonEmpty entries k <;> simp [Option.or]

/-- C1 counterexample: `scrape_player` aborts on concrete pages where an
individual field's element is absent or malformed — a missing name header
(`AttributeError`), missing position sources (`IndexError`), unparseable
height text, unparseable birth-date text, an unparseable chart value (all
`ValueError`), and a transfer grid block of the wrong width (`ValueError`
from the column check) — instead of degrading that field to null. -/
theorem c1_absence_or_malformation_aborts :
    scrape_player "https://www.transfermarkt.us/-/profil/spieler/123" pageWithoutName =
      .error (.attributeError "NoneType object has no attribute text")
    ∧ scrape_player "https://www.transfermarkt.us/-/profil/spieler/123" pageWithoutPosition =
      .error (.indexError "list index out of range")
    ∧ scrape_player "https://www.transfermarkt.us/-/profil/spieler/123" pageBadHeight =
      .error (.valueError "could not convert string to float")
    ∧ scrape_player "https://www.transfermarkt.us/-/profil/spieler/123" pageBadDob =
      .error (.valueError "invalid literal for int")
    ∧ scrape_player "https://www.transfermarkt.us/-/profil/spieler/123" pageBadChart =
      .error (.valueError "invalid literal for int")
    ∧ scrape_player "https://www.transfermarkt.us/-/profil/spieler/123" pageBadGrid =
      .error (.valueError "columns passed, passed data had a different number of columns") :=
  ⟨rfl, rfl, rfl, rfl, rfl, rfl⟩

/-- `scrape_player` succeeds exactly when each of its fallible per-field
extractors succeeds; the absence of the market-value, nationality,
citizenship, other-positions or team elements never appears among these
conditions, so it can never abort the extraction. -/
theorem scrape_player_isOk_iff (link : String) (p : PlayerPage) :
    (scrape_player link p).isOk = true ↔
      ((extractName p.nameTag).isOk = true
        ∧ (extractDobAge p.birthDateTag).isOk = true
        ∧ (heightOf p.heightTag).isOk = true
        ∧ (extractPosition p.detailPositionDD p.liLabels).isOk = true
        ∧ (labelScan p.spanLabels "last club").isOk = true
        ∧ (labelScan p.spanLabels "since").isOk = true
        ∧ (labelScan p.spanLabels "joined").isOk = true
        ∧ (labelScan p.spanLabels "contract expires").isOk = true
        ∧ (marketValueHistory p.scripts).isOk = true
        ∧ (transfer_history p.transferBlocks).isOk = true) := by
  unfold scrape_player
  cases hn : extractName p.nameTag with
  | error e => simp [hn, Bind.bind, Except.bind, Except.isOk, Except.toBool]
  | ok name =>
    cases hd : extractDobAge p.birthDateTag with
    | error e => simp [hn, hd, Bind.bind, Except.bind, Except.isOk, Except.toBool]
    | ok da =>
      cases hh : heightOf p.heightTag with
      | error e => simp [hn, hd, hh, Bind.bind, Except.bind, Except.isOk, Except.toBool]
      | ok hgt =>
        cases hp : extractPosition p.detailPositionDD p.liLabels with
        | error e =>
            simp [hn, hd, hh, hp, Bind.bind, Except.bind, Except.isOk, Except.toBool]
        | ok pos =>
          cases hl1 : labelScan p.spanLabels "last club" with
          | error e =>
              simp [hn, hd, hh, hp, hl1, Bind.bind, Except.bind, Except.isOk, Except.toBool]
          | ok lc =>
            cases hl2 : labelScan p.spanLabels "since" with
            | error e =>
                simp [hn, hd, hh, hp, hl1, hl2, Bind.bind, Except.bind, Except.isOk,
                  Except.toBool]
            | ok sd =>
              cases hl3 : labelScan p.spanLabels "joined" with
              | error e =>
                  simp [hn, hd, hh, hp, hl1, hl2, hl3, Bind.bind, Except.bind, Except.isOk,
                    Except.toBool]
              | ok jd =>
                cases hl4 : labelScan p.spanLabels "contract expires" with
                | error e =>
                    simp [hn, hd, hh, hp, hl1, hl2, hl3, hl4, Bind.bind, Except.bind,
                      Except.isOk, Except.toBool]
                | ok ce =>
                  cases hm : marketValueHistory p.scripts with
                  | error e =>
                      simp [hn, hd, hh, hp, hl1, hl2, hl3, hl4, hm, Bind.bind, Except.bind,
                        Except.isOk, Except.toBool]
                  | ok mh =>
                    cases ht : transfer_history p.transferBlocks with
                    | error e =>
                        simp [hn, hd, hh, hp, hl1, hl2, hl3, hl4, hm, ht, Bind.bind,
                          Except.bind, Except.isOk, Except.toBool]
                    | ok th =>
                        simp [hn, hd, hh, hp, hl1, hl2, hl3, hl4, hm, ht, Bind.bind,
                          Except.bind, pure, Except.pure, Except.isOk, Except.toBool]

/-- On every page where `scrape_player` succeeds, each field whose source
element is absent comes out null. -/
theorem scrape_player_absent_null (link : String) (p : PlayerPage) (r : PlayerRecord)
    (h : scrape_player link p = .ok r) :
    (p.valueTag = none → r.value = none ∧ r.valueLastUpdated = none)
    ∧ (p.birthDateTag = none → r.dob = none ∧ r.age = none)
    ∧ (p.heightTag = none → r.height = none)
    ∧ (p.nationalityTag = none → r.nationality = none)
    ∧ (p.detailPositionDiv = none → r.otherPositions = none)
    ∧ (p.teamTag = none → r.team = none)
    ∧ (labelHits p.spanLabels "last club" = [] → r.lastClub = none)
    ∧ (labelHits p.spanLabels "since" = [] → r.since = none)
    ∧ (labelHits p.spanLabels "joined" = [] → r.joined = none)
    ∧ (labelHits p.spanLabels "contract expires" = [] → r.contractExpiration = none)
    ∧ (p.scripts.filter (fun s => pyContains s "var chart = new Highcharts.Chart") = [] →
        r.marketValueHistory = none) := by
  unfold scrape_player at h
  cases hn : extractName p.nameTag with
  | error e =>
      simp only [hn, Bind.bind, Except.bind] at h
      exact Except.noConfusion h
  | ok name =>
  simp only [hn, Bind.bind, Except.bind] at h
  cases hd : extractDobAge p.birthDateTag with
  | error e =>
      simp only [hd, Bind.bind, Except.bind] at h
      exact Except.noConfusion h
  | ok da =>
  simp only [hd, Bind.bind, Except.bind] at h
  cases hh : heightOf p.heightTag with
  | error e =>
      simp only [hh, Bind.bind, Except.bind] at h
      exact Except.noConfusion h
  | ok hgt =>
  simp only [hh, Bind.bind, Except.bind] at h
  cases hp : extractPosition p.detailPositionDD p.liLabels with
  | error e =>
      simp only [hp, Bind.bind, Except.bind] at h
      exact Except.noConfusion h
  | ok pos =>
  simp only [hp, Bind.bind, Except.bind] at h
  cases hl1 : labelScan p.spanLabels "last club" with
  | error e =>
      simp only [hl1, Bind.bind, Except.bind] at h
      exact Except.noConfusion h
  | ok lc =>
  simp only [hl1, Bind.bind, Except.bind] at h
  cases hl2 : labelScan p.spanLabels "since" with
  | error e =>
      simp only [hl2, Bind.bind, Except.bind] at h
      exact Except.noConfusion h
  | ok sd =>
  simp only [hl2, Bind.bind, Except.bind] at h
  cases hl3 : labelScan p.spanLabels "joined" with
  | error e =>
      simp only [hl3, Bind.bind, Except.bind] at h
      exact Except.noConfusion h
  | ok jd =>
  simp only [hl3, Bind.bind, Except.bind] at h
  cases hl4 : labelScan p.spanLabels "contract expires" with
  | error e =>
      simp only [hl4, Bind.bind, Except.bind] at h
      exact Except.noConfusion h
  | ok ce =>
  simp only [hl4, Bind.bind, Except.bind] at h
  cases hm : marketValueHistory p.scripts with
  | error e =>
      simp only [hm, Bind.bind, Except.bind] at h
      exact Except.noConfusion h
  | ok mh =>
  simp only [hm, Bind.bind, Except.bind] at h
  cases ht : transfer_history p.transferBlocks with
  | error e =>
      simp only [ht, Bind.bind, Except.bind] at h
      exact Except.noConfusion h
  | ok th =>
  simp only [ht, Bind.bind, Except.bind, pure, Except.pure] at h
  injection h with hr
  subst hr
  refine ⟨?_, ?_, ?_, ?_, ?_, ?_, ?_, ?_, ?_, ?_, ?_⟩
  · intro habs
    simp [habs, extractValue]
  · intro habs
    rw [habs] at hd
    simp only [extractDobAge] at hd
    injection hd with h2
    subst h2
    exact ⟨rfl, rfl⟩
  · intro habs
    rw [habs] at hh
    simp only [heightOf] at hh
    injection hh with h2
    subst h2
    rfl
  · intro habs
    simp [habs]
  · intro habs
    simp [habs]
  · intro habs
    simp [habs]
  · intro habs
    simp [labelScan, habs] at hl1
    simp [hl1]
  · intro habs
    simp [labelScan, habs] at hl2
    simp [hl2]
  · intro habs
    simp [labelScan, habs] at hl3
    simp [hl3]
  · intro habs
    simp [labelScan, habs] at hl4
    simp [hl4]
  · intro habs
    simp [marketValueHistory, habs] at hm
    simp [hm]

/-- C1 (amended): on every fetched profile page, extraction succeeds
exactly when the name header element is present, the birth-date and height
texts are parseable when present, a position source resolves, the four
label scans are unambiguous, the chart values are parseable when the chart
is present, and the transfer grid's width check passes — so the absence of
the market-value, birth-date, height, nationality, citizenship,
other-positions, team, label-scanned or chart elements never aborts
extraction of the remaining fields — and on every successful page each
field whose source element is absent degrades to null. -/
theorem c1_absence_degrades_to_null (link : String) (p : PlayerPage) :
    ((scrape_player link p).isOk = true ↔
      ((extractName p.nameTag).isOk = true
        ∧ (extractDobAge p.birthDateTag).isOk = true
        ∧ (heightOf p.heightTag).isOk = true
        ∧ (extractPosition p.detailPositionDD p.liLabels).isOk = true
        ∧ (labelScan p.spanLabels "last club").isOk = true
        ∧ (labelScan p.spanLabels "since").isOk = true
        ∧ (labelScan p.spanLabels "joined").isOk = true
        ∧ (labelScan p.spanLabels "contract expires").isOk = true
        ∧ (marketValueHistory p.scripts).isOk = true
        ∧ (transfer_history p.transferBlocks).isOk = true))
    ∧ (∀ r, scrape_player link p = .ok r →
        (p.valueTag = none → r.value = none ∧ r.valueLastUpdated = none)
        ∧ (p.birthDateTag = none → r.dob = none ∧ r.age = none)
        ∧ (p.heightTag = none → r.height = none)
        ∧ (p.nationalityTag = none → r.nationality = none)
        ∧ (p.detailPositionDiv = none → r.otherPositions = none)
        ∧ (p.teamTag = none → r.team = none)
        ∧ (labelHits p.spanLabels "last club" = [] → r.lastClub = none)
        ∧ (labelHits p.spanLabels "since" = [] → r.since = none)
        ∧ (labelHits p.spanLabels "joined" = [] → r.joined = none)
        ∧ (labelHits p.spanLabels "contract expires" = [] → r.contractExpiration = none)
        ∧ (p.scripts.filter (fun s => pyContains s "var chart = new Highcharts.Chart") = [] →
            r.marketValueHistory = none)) :=
  ⟨scrape_player_isOk_iff link p, fun r h => scrape_player_absent_null link p r h⟩

theorem c1_absence_degrades_to_null_witness :
    (scrape_player "https://www.transfermarkt.us/lionel-messi/profil/spieler/28003"
        pageFieldsPresent).isOk = true
    ∧ recordFieldsAbsent.value = none ∧ recordFieldsAbsent.dob = none
    ∧ recordFieldsAbsent.age = none ∧ recordFieldsAbsent.height = none
    ∧ recordFieldsAbsent.nationality = none ∧ recordFieldsAbsent.otherPositions = none
    ∧ recordFieldsAbsent.team = none ∧ recordFieldsAbsent.since = none
    ∧ recordFieldsAbsent.marketValueHistory = none := by
  have H := (c1_absence_degrades_to_null
      "https://www.transfermarkt.us/jan-oblak/profil/spieler/3" pageFieldsAbsent).2
      recordFieldsAbsent (by decide)
  exact ⟨(c1_absence_degrades_to_null
      "https://www.transfermarkt.us/lionel-messi/profil/spieler/28003" pageFieldsPresent).1.mpr
      ⟨by decide, by decide, by decide, by decide, by decide, by decide, by decide, by decide,
        by decide, by decide⟩,
    (H.1 rfl).1, (H.2.1 rfl).1, (H.2.1 rfl).2, H.2.2.1 rfl, H.2.2.2.1 rfl,
    H.2.2.2.2.1 rfl, H.2.2.2.2.2.1 rfl, H.2.2.2.2.2.2.2.1 (by decide),
    H.2.2.2.2.2.2.2.2.2.2 (by decide)⟩

/-- C10 counterexample: a page with one 7-segment grid block and one
6-segment grid block — a block with a different number of segments than 7 —
does not raise: pandas pads the short row with a null and the construction
succeeds. -/
theorem c10_mixed_blocks_succeed :
    transfer_history
        [["s1", "d1", "l1", "j1", "m1", "f1", "x1"], ["s2", "d2", "l2", "j2", "m2", "f2"]] =
      .ok ([[some "s1", some "d1", some "l1", some "j1", some "m1", some "f1"],
            [some "s2", some "d2", some "l2", some "j2", some "m2", some "f2"]],
           ["Season", "Date", "Left", "Joined", "MV", "Fee"]) := by
  decide

/-- C10 (amended): the transfer-history construction succeeds exactly when
the page has no grid blocks or the maximum segment count across blocks is
7 (shorter blocks are padded with nulls); on success the trailing
empty-named column is dropped, leaving the six named columns. -/
theorem c10_column_mismatch_on_max (blocks : List (List String)) :
    ((transfer_history blocks).isOk = true ↔
      (blocks = [] ∨ pdMaxLen (tmSegments blocks) = 7))
    ∧ (∀ rows cols, transfer_history blocks = .ok (rows, cols) →
        cols = ["Season", "Date", "Left", "Joined", "MV", "Fee"]) := by
  have hcols : tmCols.length = 7 := by decide
  have hempty : (tmSegments blocks).isEmpty = true ↔ blocks = [] := by
    simp [tmSegments, List.isEmpty_iff]
  constructor
  · unfold transfer_history pdRowsFromLists
    rw [hcols]
    by_cases hb : blocks = []
    · subst hb
      simp [tmSegments, Except.isOk, Except.toBool]
    · rw [if_neg (by simp [hempty, hb])]
      by_cases hm : pdMaxLen (tmSegments blocks) = 7
      · rw [if_pos hm]
        simp [hm, Except.isOk, Except.toBool]
      · rw [if_neg hm]
        simp [hb, hm, Except.isOk, Except.toBool]
  · intro rows cols h
    unfold transfer_history at h
    cases hp : pdRowsFromLists (tmSegments blocks) tmCols.length with
    | error e =>
        rw [hp] at h
        cases h
    | ok rs =>
        rw [hp] at h
        have := (Except.ok.inj h)
        have hc : tmCols.filter (fun c => c != "") = cols := congrArg Prod.snd this
        rw [← hc]
        decide

theorem c10_column_mismatch_on_max_witness :
    (transfer_history [["a", "b", "c", "d", "e", "f", "g"]]).isOk = true
    ∧ (["Season", "Date", "Left", "Joined", "MV", "Fee"] : List String) =
        ["Season", "Date", "Left", "Joined", "MV", "Fee"] :=
  ⟨(c10_column_mismatch_on_max [["a", "b", "c", "d", "e", "f", "g"]]).1.mpr
      (Or.inr (by decide)),
   (c10_column_mismatch_on_max [["a", "b", "c", "d", "e", "f", "g"]]).2
      [[some "a", some "b", some "c", some "d", some "e", some "f"]]
      ["Season", "Date", "Left", "Joined", "MV", "Fee"] (by decide)⟩
